import Mathlib

/-!
Shallow embedding of `src/profiles_backup/cli.py` (the Thunderbird
profiles backup/restore tool) and proofs about its behaviour.

Filesystem trees are modelled as partial maps from relative paths
(lists of entry names, innermost component last) to file contents.
Python string primitives (`str.startswith`, `str.endswith`, slicing)
are modelled over the character list of a Lean `String`.
-/

namespace ProfilesBackup

/-- Python `s.startswith(pre)` over unicode code points. -/
def strStarts (s pre : String) : Bool := pre.data.isPrefixOf s.data

/-- Python `s.endswith(suf)` over unicode code points. -/
def strEnds (s suf : String) : Bool := suf.data.isSuffixOf s.data

/-- Python slicing `s[n:]` over unicode code points. -/
def strDrop (s : String) (n : Nat) : String := ⟨s.data.drop n⟩

/-- A relative path: the list of directory-entry names from the tree root
down to the entry, the entry's own name last. -/
abbrev FsPath := List String

/-- A filesystem tree: contents of the regular file at each relative path,
`none` where no file exists. -/
abbrev FileSystem := FsPath → Option String

/-- The empty directory tree. -/
def emptyFS : FileSystem := fun _ => none

/-- `shutil.ignore_patterns('*.ini', '*.default')` applied to one entry
name: `fnmatch` of `*.X` against a basename holds exactly when the name
ends with `.X`. -/
def matchesIgnore (name : String) : Bool :=
  strEnds name ".ini" || strEnds name ".default"

/-- Model of `shutil.copytree(src, dst, dirs_exist_ok=True, ignore=...)` as used at
cli.py:97-98, viewed as a map on path-indexed trees.  The ignore callback
is applied to the entry names of every directory visited, and a matching
entry (file or directory) is skipped together with its whole subtree, so
a path survives the copy exactly when none of its components matches; a
copied file overwrites the destination file of the same relative path,
and destination files not copied over are kept (`dirs_exist_ok=True`
merges into an existing destination). -/
def copytree (src dst : FileSystem) : FileSystem :=
  fun p =>
    match src p with
    | some c => if p.all (fun n => !(matchesIgnore n)) then some c else dst p
    | none => dst p

/-- Model of `distutils.dir_util.copy_tree(src, dst)` as used at cli.py:197: a
recursive merge with no ignore rule — every source file is copied,
overwriting a same-named destination file; destination files absent from
the source are kept. -/
def copy_tree (src dst : FileSystem) : FileSystem :=
  fun p =>
    match src p with
    | some c => some c
    | none => dst p

/-- The result of `datetime.datetime.now()` (cli.py:83): a timestamp with
calendar-date and time-of-day fields. -/
structure DateTime where
  day : Nat
  month : Nat
  year : Nat
  hour : Nat
  minute : Nat
  second : Nat
deriving DecidableEq

/-- Two-digit zero-padded decimal field, as produced by `strftime` for
`%d` and `%m`. -/
def pad2 (n : Nat) : String := if n < 10 then "0" ++ toString n else toString n

/-- Model of `current_date.strftime('%d-%m-%Y')` (cli.py:92): zero-padded day and
month, then the decimal year. -/
def strftime_dmY (t : DateTime) : String :=
  pad2 t.day ++ "-" ++ pad2 t.month ++ "-" ++ toString t.year

/-- The constant `backup_folder = 'Thunderbird-Backup/'` (cli.py:91). -/
def backup_folder : String := "Thunderbird-Backup/"

/-- The snapshot directory name `'th-' + current_date.strftime('%d-%m-%Y')`
(cli.py:92). -/
def snapshotDirName (t : DateTime) : String := "th-" ++ strftime_dmY t

/-- The backup destination `dst = documents + backup_folder + 'th-' + date`
(cli.py:92). -/
def backupDst (documents : String) (t : DateTime) : String :=
  documents ++ backup_folder ++ snapshotDirName t

/-- Modelled from the spec: `common.documents_directory(operating_system)`
is not under src/; §2 and §4.1 describe it as the platform-aware
resolution of the caller's Documents directory, keyed on the running
operating system. -/
def documents_directory (operating_system user : String) : String :=
  if operating_system = "Darwin" then "/Users/" ++ user ++ "/Documents/"
  else if operating_system = "Linux" then "/home/" ++ user ++ "/Documents/"
  else "C:/Users/" ++ user ++ "/Documents/"

/-- The BackupRoot directory the backup path writes under:
`documents + backup_folder` (cli.py:89-92). -/
def backupRootDir (operating_system user : String) : String :=
  documents_directory operating_system user ++ backup_folder

/-- The hard-coded directory `restore_from_documents` lists
(cli.py:120-121): `'/Users/{0}/Documents/Thunderbird-Backup'`. -/
def restoreListDir (user : String) : String :=
  "/Users/" ++ user ++ "/Documents/Thunderbird-Backup"

/-- The hard-coded directory `restore_data` reads from (cli.py:186-187):
`'/Users/{0}/Documents/Thunderbird-Backup/'`. -/
def restoreDocuments (user : String) : String :=
  "/Users/" ++ user ++ "/Documents/Thunderbird-Backup/"

/-- The source path `src = documents + backup_item[4:]` computed by
`restore_data` (cli.py:188). -/
def restore_data_src (user backup_item : String) : String :=
  restoreDocuments user ++ strDrop backup_item 4

/-- Copy step of `restore_data` (cli.py:197): merge the chosen snapshot
tree into the default profile tree. -/
def restore_data (snap dst : FileSystem) : FileSystem := copy_tree snap dst

/-- Modelled from the spec: `clean_data.delete_old_profiles` (cli.py:76)
is not under src/; §4.3 specifies age-based retention that deletes every
snapshot whose age exceeds the configured threshold and keeps the rest.
Snapshots are given with their age in days. -/
def prune (maxAgeDays : Nat) (snaps : List (String × Nat)) : List (String × Nat) :=
  snaps.filter (fun s => decide (s.2 ≤ maxAgeDays))

/-- The message printed by both `backup` (cli.py:72) and
`restore_from_documents` (cli.py:117) when the liveness gate fires. -/
def thunderbirdRunningMsg : String :=
  "Thunderbird is running! Quit Thunderbird and restart this program."

/-- Observable outcome of one `backup()` invocation (cli.py:62-105). -/
structure BackupOutcome where
  /-- messages printed to the user (liveness abort / success report) -/
  messages : List String
  /-- whether `clean_data.delete_old_profiles()` was reached -/
  prunedOld : Bool
  /-- the snapshot tree written, `none` when no copy was performed -/
  snapshot : Option FileSystem
  /-- the destination path of the snapshot, `none` when no copy happened -/
  dst : Option String

/-- Model of `backup()` (cli.py:62-105) on its successful control paths: the
liveness gate is queried first; if the client runs, the function prints
the gate message and exits before any pruning or copying; otherwise it
prunes old profiles, resolves the source and destination, and merges the
source into whatever already exists at the destination via `copytree`
(`existing` is the prior content of the dated snapshot directory,
`emptyFS` on the first run of a day). -/
def backup (isRunning : Bool) (operating_system user : String)
    (src : FileSystem) (t : DateTime) (existing : FileSystem) : BackupOutcome :=
  if isRunning then
    { messages := [thunderbirdRunningMsg], prunedOld := false,
      snapshot := none, dst := none }
  else
    let dst := backupDst (documents_directory operating_system user) t
    { messages := ["Successfully created the backup!"], prunedOld := true,
      snapshot := some (copytree src existing), dst := some dst }

/-- The filter applied to the BackupRoot listing (cli.py:128-131):
`entry.startswith('t')`. -/
def list_backups (entries : List String) : List String :=
  entries.filter (fun e => strStarts e "t")

/-- The decoration `f"-{count}- {entry}"` applied to each kept entry with
a running counter (cli.py:126-131). -/
def decorate : List String → Nat → List String
  | [], _ => []
  | e :: es, c => ("-" ++ toString c ++ "- " ++ e) :: decorate es (c + 1)

/-- The list `backup_list` as built at cli.py:126-133: the decorated kept entries,
then the `"-q- Quit"` sentinel appended at the end. -/
def mkBackupList (entries : List String) : List String :=
  decorate (list_backups entries) 1 ++ ["-q- Quit"]

/-- One pass of the `while True` dispatch at cli.py:143-165 on a single
line of input. -/
inductive SelStep where
  | select (i : Nat)
  | quitApp
  | retry
deriving DecidableEq

/-- The dispatch on `choice` (cli.py:146-165): the literals `'1'`..`'5'`
select `backup_list[0]`..`backup_list[4]`, `'q'` quits, anything else
prints a retry prompt and loops. -/
def selectionStep (choice : String) : SelStep :=
  if choice = "1" then .select 0
  else if choice = "2" then .select 1
  else if choice = "3" then .select 2
  else if choice = "4" then .select 3
  else if choice = "5" then .select 4
  else if choice = "q" then .quitApp
  else .retry

/-- How the selection loop ends. -/
inductive SelResult where
  /-- `restore_data(backup_list[i])` was invoked with this list element -/
  | restored (item : String)
  /-- `quit_application()` was reached: clean `sys.exit` -/
  | quitApp
  /-- `backup_list[i]` was evaluated out of range: `IndexError`, which no
  handler in `restore_from_documents` catches (only `FileNotFoundError`
  is, cli.py:167), so it escapes as an unhandled exception -/
  | indexError
  /-- the input stream ended while the loop still asked for input -/
  | exhausted
deriving DecidableEq

/-- The selection loop (cli.py:143-165) run over a finite input stream. -/
def selectionLoop (backupList : List String) : List String → SelResult
  | [] => .exhausted
  | choice :: rest =>
    match selectionStep choice with
    | .select i =>
      match backupList.get? i with
      | some item => .restored item
      | none => .indexError
    | .quitApp => .quitApp
    | .retry => selectionLoop backupList rest

/-- Observable outcome of one `restore_from_documents()` invocation. -/
structure RestoreRun where
  /-- abort/selection messages shown to the user (prompts and listings
  are not tracked) -/
  messages : List String
  /-- how the selection loop ended, `none` when control never reached it
  (liveness abort or missing backup root) -/
  result : Option SelResult
  /-- whether control returned cleanly (liveness abort returns, quit and
  the missing-root handler call `sys.exit`); `false` exactly when an
  exception escaped unhandled -/
  cleanExit : Bool
  /-- the `backup_item` argument passed to `restore_data`, if it was
  invoked at all -/
  restoreDataItem : Option String

/-- Model of `restore_from_documents()` (cli.py:108-172): liveness gate first
(print and return if the client runs), then list the hard-coded backup
root (`rootEntries = none` models `FileNotFoundError`, caught at
cli.py:167 and ending in a clean `sys.exit`), build `backup_list`, and
run the selection loop over the caller's input lines. -/
def restore_from_documents (isRunning : Bool) (rootEntries : Option (List String))
    (inputs : List String) : RestoreRun :=
  if isRunning then
    { messages := [thunderbirdRunningMsg], result := none,
      cleanExit := true, restoreDataItem := none }
  else
    match rootEntries with
    | none =>
      { messages := ["Could not find a directory named Thunderbird-Backup!"],
        result := none, cleanExit := true, restoreDataItem := none }
    | some entries =>
      match selectionLoop (mkBackupList entries) inputs with
      | .restored item =>
        { messages := ["Successfully restored the backup!"],
          result := some (.restored item), cleanExit := true,
          restoreDataItem := some item }
      | .quitApp =>
        { messages := ["Goodbye!"], result := some .quitApp, cleanExit := true,
          restoreDataItem := none }
      | .indexError =>
        { messages := [], result := some .indexError, cleanExit := false,
          restoreDataItem := none }
      | .exhausted =>
        { messages := [], result := some .exhausted, cleanExit := true,
          restoreDataItem := none }


/-- A profile tree holding a single file whose name ends in `.default`
but has no component literally equal to `default` and no `.ini`
extension. -/
def c1src : FileSystem := fun p => if p = ["a.default"] then some "x" else none

/-- First-run profile tree for the same-day rerun scenario: one ordinary
file that the second run's source no longer has. -/
def c5run1src : FileSystem := fun p => if p = ["stale.txt"] then some "old" else none

/-- A concrete timestamp for the same-day rerun scenario. -/
def c5t : DateTime := ⟨6, 8, 2021, 9, 0, 0⟩

/-- The snapshot produced by the first run of the same-day scenario. -/
def c5snap1 : FileSystem := copytree c5run1src emptyFS


/-! ## Helper lemmas on decimal rendering -/

/-- With enough fuel, `Nat.toDigitsCore` base 10 produces exactly one
character per decimal digit on top of the accumulator. -/
theorem toDigitsCore_len (f : Nat) : ∀ (n : Nat) (l : List Char), n < f →
    (Nat.toDigitsCore 10 f n l).length = Nat.log 10 n + 1 + l.length := by
  induction f with
  | zero => intro n l h; omega
  | succ f ih =>
    intro n l h
    simp only [Nat.toDigitsCore]
    by_cases hdiv : n / 10 = 0
    · have hn : n < 10 := by omega
      simp [hdiv, Nat.log_of_lt hn]
      omega
    · have hn : 10 ≤ n := by omega
      have hlt : n / 10 < f := by omega
      simp only [hdiv, if_false]
      rw [ih (n / 10) _ hlt]
      have h1 : Nat.log 10 (n / 10) = Nat.log 10 n - 1 := Nat.log_div_base 10 n
      have h2 : 0 < Nat.log 10 n := Nat.log_pos (by norm_num) hn
      simp only [List.length_cons]
      omega

/-- The decimal rendering of a natural number has exactly one character
per decimal digit. -/
theorem repr_len_exact (n : Nat) : (Nat.repr n).length = Nat.log 10 n + 1 := by
  have h : (Nat.repr n).length = (Nat.toDigitsCore 10 (n + 1) n []).length := rfl
  rw [h, toDigitsCore_len (n + 1) n [] (Nat.lt_succ_self n)]
  simp

/-- Zero-padded `%d` / `%m` fields are always two characters for values
below 100. -/
theorem pad2_length (n : Nat) (h : n < 100) : (pad2 n).length = 2 := by
  unfold pad2
  by_cases h10 : n < 10
  · rw [if_pos h10, String.length_append]
    have ht : (toString n).length = 1 := by
      rw [show toString n = Nat.repr n from rfl, repr_len_exact, Nat.log_of_lt h10]
    rw [ht]
    rfl
  · rw [if_neg h10, show toString n = Nat.repr n from rfl, repr_len_exact,
      Nat.log_eq_of_pow_le_of_lt_pow (by omega : 10 ^ 1 ≤ n) (by omega : n < 10 ^ (1 + 1))]

/-- A four-digit year renders as exactly four characters under `%Y`. -/
theorem toString_year_length (y : Nat) (h1 : 1000 ≤ y) (h2 : y ≤ 9999) :
    (toString y).length = 4 := by
  rw [show toString y = Nat.repr y from rfl, repr_len_exact,
    Nat.log_eq_of_pow_le_of_lt_pow (by omega : 10 ^ 3 ≤ y) (by omega : y < 10 ^ (3 + 1))]

/-! ## Claims -/

/-- C1 is false as stated: the file `a.default` has no `.ini` extension
and no path component equal to `default`, so the claim says it is
copied; the actual ignore rule `*.default` skips it, and it never
reaches the snapshot. -/
theorem copytree_skips_unclaimed_file :
    c1src ["a.default"] = some "x"
    ∧ "a.default" ≠ "default"
    ∧ strEnds "a.default" ".ini" = false
    ∧ copytree c1src emptyFS ["a.default"] = none := by
  refine ⟨by decide, by decide, by decide, by decide⟩

/-- C1 (amended): the recursive copy into a fresh snapshot skips exactly
the entries whose name matches `*.ini` or `*.default` (any path with
such a component is pruned and never appears in the snapshot), and every
other file is copied with identical content. -/
theorem copytree_exclusion_rule (src : FileSystem) (p : FsPath) :
    ((∃ n ∈ p, matchesIgnore n = true) → copytree src emptyFS p = none)
    ∧ ((∀ n ∈ p, matchesIgnore n = false) → copytree src emptyFS p = src p) := by
  constructor
  · intro h
    have hall : p.all (fun n => !(matchesIgnore n)) = false := by
      obtain ⟨n, hn, hmn⟩ := h
      rw [Bool.eq_false_iff]
      intro hall
      have hx := List.all_eq_true.mp hall n hn
      rw [hmn] at hx
      simp at hx
    cases hs : src p <;> simp [copytree, hs, hall, emptyFS]
  · intro h
    have hall : p.all (fun n => !(matchesIgnore n)) = true := by
      rw [List.all_eq_true]
      intro n hn
      simp [h n hn]
    cases hs : src p <;> simp [copytree, hs, hall, emptyFS]

/-- Witness for C1 (amended): a `.ini` file is excluded from a concrete
snapshot while an ordinary data file is copied unchanged. -/
theorem copytree_exclusion_rule_witness :
    copytree c1src emptyFS ["prefs.ini"] = none
    ∧ copytree c1src emptyFS ["places.sqlite"] = c1src ["places.sqlite"] :=
  ⟨(copytree_exclusion_rule c1src ["prefs.ini"]).1 ⟨"prefs.ini", by decide, by decide⟩,
   (copytree_exclusion_rule c1src ["places.sqlite"]).2 (by decide)⟩


/-- C2 (code bug): with two snapshots listed, `backup_list` has three
elements because the `-q- Quit` sentinel is appended to it, and the
hard-wired branch for input `'3'` passes `backup_list[2]` — the quit
sentinel itself — straight to `restore_data`, which then resolves the
bogus source path `<root>/Quit`; the selection loop does not reject the
out-of-range choice as the claim requires. -/
theorem quit_sentinel_reaches_restore_data :
    (restore_from_documents false (some ["th-01-01-2021", "th-02-01-2021"])
        ["3"]).restoreDataItem = some "-q- Quit"
    ∧ restore_data_src "u" "-q- Quit" = "/Users/u/Documents/Thunderbird-Backup/Quit" := by
  refine ⟨by decide, by decide⟩

/-- C3 (code bug): the backup path derives the BackupRoot from the
platform-aware Documents directory while the restore path hard-codes the
`/Users/<user>/Documents` convention, so on Linux the two operations
resolve different BackupRoot directories; they coincide only on the
macOS convention the restore path bakes in. -/
theorem backup_restore_root_divergence :
    backupRootDir "Linux" "alice" = "/home/alice/Documents/Thunderbird-Backup/"
    ∧ restoreListDir "alice" = "/Users/alice/Documents/Thunderbird-Backup"
    ∧ restoreDocuments "alice" = "/Users/alice/Documents/Thunderbird-Backup/"
    ∧ backupRootDir "Linux" "alice" ≠ restoreDocuments "alice"
    ∧ backupRootDir "Darwin" "alice" = restoreDocuments "alice" := by
  refine ⟨by decide, by decide, by decide, by decide, by decide⟩

/-- C4 is false as stated: the enumeration filter is
`entry.startswith('t')`, so the entry `temp`, which does not begin with
the creation-time `th-` token, is nevertheless listed. -/
theorem list_backups_accepts_non_th_entry :
    list_backups ["temp"] = ["temp"] ∧ strStarts "temp" "th-" = false := by
  refine ⟨by decide, by decide⟩

/-- C4 (amended): snapshot enumeration keeps exactly the entries whose
name begins with the single character `t` (a superset of the `th-`
creation names), in listing order; the spec's own example listing still
comes out as exactly its two `th-` entries. -/
theorem list_backups_filter_t (entries : List String) (e : String) :
    (e ∈ list_backups entries ↔ e ∈ entries ∧ strStarts e "t" = true)
    ∧ List.Sublist (list_backups entries) entries
    ∧ list_backups ["th-01-01-2021", "notes.txt", "th-02-01-2021"]
        = ["th-01-01-2021", "th-02-01-2021"] := by
  refine ⟨?_, List.filter_sublist entries, by decide⟩
  simp [list_backups, List.mem_filter]

/-- C5 is false as stated: after a first backup captured `stale.txt`, a
second same-day run whose source no longer contains the file leaves it
in the snapshot (`dirs_exist_ok=True` merges into the existing dated
directory), so the snapshot content is not equal to the second run's
source state. -/
theorem second_backup_keeps_stale_file :
    (backup false "Darwin" "u" emptyFS c5t c5snap1).snapshot
      = some (copytree emptyFS c5snap1)
    ∧ copytree emptyFS c5snap1 ["stale.txt"] = some "old"
    ∧ emptyFS ["stale.txt"] = none := by
  refine ⟨rfl, by decide, rfl⟩

/-- C5 (amended): two backups on the same calendar date target the same
snapshot directory name (the name depends only on the date fields, and
an age-zero snapshot is never pruned by the retention rule), and the
rerun overwrites at file level but merges at tree level: a non-excluded
path holds the second source's content when the second source has it and
otherwise keeps the first run's copy; excluded paths stay absent. -/
theorem backup_same_day_rerun (t₁ t₂ : DateTime) (doc : String)
    (src₁ src₂ : FileSystem) (p : FsPath) (maxAgeDays : Nat)
    (snaps : List (String × Nat))
    (hd : t₁.day = t₂.day) (hm : t₁.month = t₂.month) (hy : t₁.year = t₂.year) :
    backupDst doc t₁ = backupDst doc t₂
    ∧ copytree src₂ (copytree src₁ emptyFS) p =
        (if p.all (fun n => !(matchesIgnore n)) then
          match src₂ p with
          | some c => some c
          | none => src₁ p
        else none)
    ∧ ((snapshotDirName t₂, 0) ∈ snaps → (snapshotDirName t₂, 0) ∈ prune maxAgeDays snaps) := by
  refine ⟨?_, ?_, ?_⟩
  · unfold backupDst snapshotDirName strftime_dmY
    rw [hd, hm, hy]
  · by_cases hall : p.all (fun n => !(matchesIgnore n)) = true
    · cases h2 : src₂ p <;> cases h1 : src₁ p <;>
        simp [copytree, h1, h2, hall, emptyFS]
    · have hall2 : p.all (fun n => !(matchesIgnore n)) = false := by
        revert hall
        cases p.all (fun n => !(matchesIgnore n)) <;> simp
      cases h2 : src₂ p <;> cases h1 : src₁ p <;>
        simp [copytree, h1, h2, hall2, emptyFS]
  · intro hmem
    unfold prune
    rw [List.mem_filter]
    exact ⟨hmem, by simp⟩

/-- Witness for C5 (amended): a morning run and an evening run of the
same day write to the identical snapshot path. -/
theorem backup_same_day_rerun_witness :
    backupDst "/d/" ⟨6, 8, 2021, 9, 0, 0⟩ = backupDst "/d/" ⟨6, 8, 2021, 23, 59, 59⟩ :=
  (backup_same_day_rerun ⟨6, 8, 2021, 9, 0, 0⟩ ⟨6, 8, 2021, 23, 59, 59⟩ "/d/"
    emptyFS emptyFS [] 30 [] rfl rfl rfl).1

/-- C6: when the liveness gate reports the mail client running, `backup`
prints the gate message and stops before pruning or copying anything,
and `restore_from_documents` prints the same message and returns
cleanly without reaching the selection loop or `restore_data`. -/
theorem liveness_gate_aborts (operating_system user : String)
    (src existing : FileSystem) (t : DateTime)
    (rootEntries : Option (List String)) (inputs : List String) :
    (backup true operating_system user src t existing).snapshot = none
    ∧ (backup true operating_system user src t existing).prunedOld = false
    ∧ (backup true operating_system user src t existing).messages
        = [thunderbirdRunningMsg]
    ∧ (restore_from_documents true rootEntries inputs).restoreDataItem = none
    ∧ (restore_from_documents true rootEntries inputs).result = none
    ∧ (restore_from_documents true rootEntries inputs).messages
        = [thunderbirdRunningMsg]
    ∧ (restore_from_documents true rootEntries inputs).cleanExit = true :=
  ⟨rfl, rfl, rfl, rfl, rfl, rfl, rfl⟩


/-- C7: restore is additive and overwriting — a destination file absent
from the chosen snapshot survives with unchanged content, a file present
in both ends up with the snapshot's content, and no destination file is
deleted (the merged tree is empty at a path only where the destination
already was). -/
theorem restore_data_additive (snap dst : FileSystem) (p : FsPath) :
    (snap p = none → restore_data snap dst p = dst p)
    ∧ (∀ c, snap p = some c → restore_data snap dst p = some c)
    ∧ (restore_data snap dst p = none → dst p = none) := by
  refine ⟨fun h => by simp [restore_data, copy_tree, h],
    fun c h => by simp [restore_data, copy_tree, h], fun h => ?_⟩
  cases hs : snap p with
  | none => simpa [restore_data, copy_tree, hs] using h
  | some c => simp [restore_data, copy_tree, hs] at h

/-- Witness for C7: restoring an empty snapshot over a destination with
file `A` keeps `A`, and restoring a snapshot that has file `B` onto a
destination holding an older `B` yields the snapshot's content. -/
theorem restore_data_additive_witness :
    restore_data emptyFS (fun p => if p = ["A"] then some "a" else none) ["A"]
      = (fun p => if p = ["A"] then some "a" else none) ["A"]
    ∧ restore_data (fun p => if p = ["B"] then some "b2" else none)
        (fun p => if p = ["B"] then some "b1" else none) ["B"] = some "b2" :=
  ⟨(restore_data_additive emptyFS (fun p => if p = ["A"] then some "a" else none)
      ["A"]).1 rfl,
   (restore_data_additive (fun p => if p = ["B"] then some "b2" else none)
      (fun p => if p = ["B"] then some "b1" else none) ["B"]).2.1 "b2" (by decide)⟩

/-- C8 (code bug): with a single snapshot listed, `backup_list` has two
elements, and the hard-wired branch for input `'3'` evaluates
`backup_list[2]`, raising `IndexError`; the surrounding handler catches
only `FileNotFoundError`, so the exception escapes unhandled instead of
ending in the clean reported exit the claim requires. -/
theorem selection_out_of_range_uncaught :
    (restore_from_documents false (some ["th-01-01-2021"]) ["3"]).result
      = some .indexError
    ∧ (restore_from_documents false (some ["th-01-01-2021"]) ["3"]).cleanExit
      = false := by
  refine ⟨by decide, by decide⟩

/-- C9: every snapshot is created at
`<documents>/Thunderbird-Backup/th-<dd-mm-yyyy>`: the destination
decomposes into the Documents directory, the fixed BackupRoot name, the
`th-` token and the formatted date, whose day and month fields are
two-digit zero-padded and whose year is four digits, ten characters in
all. -/
theorem snapshot_path_layout (documents : String) (t : DateTime)
    (hd : t.day ≤ 31) (hm : t.month ≤ 12)
    (hy1 : 1000 ≤ t.year) (hy2 : t.year ≤ 9999) :
    backupDst documents t
      = documents ++ "Thunderbird-Backup/" ++ ("th-" ++ strftime_dmY t)
    ∧ snapshotDirName t = "th-" ++ strftime_dmY t
    ∧ strftime_dmY t = pad2 t.day ++ "-" ++ pad2 t.month ++ "-" ++ toString t.year
    ∧ (pad2 t.day).length = 2
    ∧ (pad2 t.month).length = 2
    ∧ (toString t.year).length = 4
    ∧ (strftime_dmY t).length = 10 := by
  have hD : (pad2 t.day).length = 2 := pad2_length t.day (by omega)
  have hM : (pad2 t.month).length = 2 := pad2_length t.month (by omega)
  have hY : (toString t.year).length = 4 := toString_year_length t.year hy1 hy2
  refine ⟨rfl, rfl, rfl, hD, hM, hY, ?_⟩
  unfold strftime_dmY
  simp only [String.length_append, hD, hM, hY]
  rfl

/-- Witness for C9: the layout facts at the concrete timestamp
06-08-2021 12:00:00. -/
theorem snapshot_path_layout_witness :
    (strftime_dmY ⟨6, 8, 2021, 12, 0, 0⟩).length = 10 :=
  (snapshot_path_layout "/Users/u/Documents/" ⟨6, 8, 2021, 12, 0, 0⟩
    (by decide) (by decide) (by decide) (by decide)).2.2.2.2.2.2

/-- The hard-wired selection branches only ever produce indices 0..4,
and only for the input literals `'1'`..`'5'`. -/
theorem selectionStep_select_bounds (choice : String) (i : Nat)
    (h : selectionStep choice = .select i) :
    i ≤ 4 ∧ choice ∈ ["1", "2", "3", "4", "5"] := by
  unfold selectionStep at h
  split_ifs at h with h1 h2 h3 h4 h5 h6
  · cases h; exact ⟨by omega, by simp [h1]⟩
  · cases h; exact ⟨by omega, by simp [h2]⟩
  · cases h; exact ⟨by omega, by simp [h3]⟩
  · cases h; exact ⟨by omega, by simp [h4]⟩
  · cases h; exact ⟨by omega, by simp [h5]⟩

/-- The quit branch fires exactly on the input literal `'q'`. -/
theorem selectionStep_quit_iff (choice : String) :
    selectionStep choice = .quitApp ↔ choice = "q" := by
  unfold selectionStep
  split_ifs with h1 h2 h3 h4 h5 h6 <;> simp [*]

/-- The retry branch fires exactly on inputs other than `'1'`..`'5'`
and `'q'`. -/
theorem selectionStep_retry_iff (choice : String) :
    selectionStep choice = .retry ↔ choice ∉ ["1", "2", "3", "4", "5", "q"] := by
  unfold selectionStep
  split_ifs with h1 h2 h3 h4 h5 h6 <;> simp [*]

/-- Whatever item the selection loop hands to `restore_data` sits at an
index at most 4 of `backup_list`. -/
theorem selectionLoop_restored_bounds (backupList : List String) :
    ∀ (inputs : List String) (item : String),
      selectionLoop backupList inputs = .restored item →
      ∃ i, i ≤ 4 ∧ backupList.get? i = some item := by
  intro inputs
  induction inputs with
  | nil => intro item h; simp [selectionLoop] at h
  | cons c rest ih =>
    intro item h
    simp only [selectionLoop] at h
    split at h
    next i hsel =>
      split at h
      next it hget =>
        cases h
        exact ⟨i, (selectionStep_select_bounds c i hsel).1, hget⟩
      next hget => cases h
    next => cases h
    next => exact ih item h

/-- C10: the selection accepts exactly the inputs `'1'`..`'5'` (mapping
to list indices 0..4) and `'q'`; every other input takes the retry
branch; and any item the loop ever passes to `restore_data` sits at an
index at most 4, so an entry at position six or later of the enumerated
list can never be selected or restored. -/
theorem selection_protocol_bounds (backupList inputs : List String) (choice : String) :
    (∀ i, selectionStep choice = .select i →
      i ≤ 4 ∧ choice ∈ ["1", "2", "3", "4", "5"])
    ∧ (selectionStep choice = .quitApp ↔ choice = "q")
    ∧ (selectionStep choice = .retry ↔ choice ∉ ["1", "2", "3", "4", "5", "q"])
    ∧ (∀ item, selectionLoop backupList inputs = .restored item →
        ∃ i, i ≤ 4 ∧ backupList.get? i = some item) :=
  ⟨fun i h => selectionStep_select_bounds choice i h,
   selectionStep_quit_iff choice,
   selectionStep_retry_iff choice,
   fun item h => selectionLoop_restored_bounds backupList inputs item h⟩

/-- Witness for C10: after one rejected input, the input `'1'` restores
the first listed item, which indeed sits at an index at most 4. -/
theorem selection_protocol_bounds_witness :
    ∃ i, i ≤ 4 ∧ (["-1- th-01-01-2021", "-q- Quit"].get? i) = some "-1- th-01-01-2021" :=
  (selection_protocol_bounds ["-1- th-01-01-2021", "-q- Quit"] ["x", "1"] "z").2.2.2
    "-1- th-01-01-2021" (by decide)

end ProfilesBackup
